import Mathlib

/-! IndicatorErrorBoundary

A verification development for
`visualization/web/src/errorBoundaries/IndicatorErrorBoundary.js`.

The module defines one React function component, `IndicatorErrorBoundary`, whose
body is a single JSX expression, and exports `ErrorBoundaryHoc(IndicatorErrorBoundary)`
as its default export.

JavaScript functions may throw and may touch the outside world, so a JavaScript
computation is embedded as a function from the external state to a result (a value
or a thrown error) paired with the external state afterwards.
-/

namespace TradingWithBot

/-! ## Values and view trees -/

/-- A JavaScript value, as a caller may pass for `props`. Numbers are IEEE doubles,
kept by bit pattern; functions are kept by reference. -/
inductive JSValue where
  | undefined
  | null
  | boolean (b : Bool)
  | number (bits : Nat)
  | string (s : String)
  | func (ref : Nat)
  | object (fields : List (String × JSValue))

/-- A node of a React view tree: a text node, or an element with a tag, its
attributes (the props other than `children`) and its children, in order. -/
inductive ReactNode where
  | text (value : String)
  | element (tag : String) (attrs : List (String × String)) (children : List ReactNode)

/-! ## External state and computations -/

/-- The external state a render could touch: requests sent over the network, the
contents of storage, and the timers that are pending. -/
structure World where
  network : List String
  storage : List (String × String)
  timers : List Nat
  deriving DecidableEq, Repr

/-- A thrown JavaScript error. -/
structure JSError where
  message : String
  deriving DecidableEq, Repr

/-- A JavaScript computation: from the external state before, to the value returned
or the error thrown, and the external state after. -/
def JS (α : Type) : Type := World → Except JSError α × World

/-- Return a value: nothing is thrown and the external state is left as it is. -/
def JS.pure {α : Type} (a : α) : JS α :=
  fun w => (Except.ok a, w)

/-- Sequence two computations; an error thrown by the first skips the second and
keeps the external state reached so far. -/
def JS.bind {α β : Type} (m : JS α) (f : α → JS β) : JS β :=
  fun w =>
    match m w with
    | (Except.ok a, w1) => f a w1
    | (Except.error e, w1) => (Except.error e, w1)

instance : Monad JS where
  pure := JS.pure
  bind := JS.bind

/-! ## The source module -/

namespace React

/-- The call `React.createElement(type, config, ...children)` that a JSX element
compiles to, for a host (string) type: it builds the element from the tag, the
attributes of `config` (none when `config` is `null`) and the children. It throws
nothing and touches no external state. Neither `key` nor `ref` is passed anywhere in
the module, so both stay `null` and are not kept in the tree. -/
def createElement (tag : String) (config : Option (List (String × String)))
    (children : List ReactNode) : JS ReactNode :=
  JS.pure (ReactNode.element tag (config.getD []) children)

end React

/-- The component of the module (source lines 4 to 10):
```
const IndicatorErrorBoundary = (props) => {
    return (
        <div className="base-container">
            <h3>Error loading indicators</h3>
        </div>
    );
};
```
The parameter is untyped in the source, hence any type here. The arguments of a call
are evaluated before the call, so the `h3` element is built first. JSX drops the
whitespace lines around the `h3`, which leaves it as the only child of the `div`. -/
def IndicatorErrorBoundary {Props : Type} (_props : Props) : JS ReactNode := do
  let heading ← React.createElement "h3" none [ReactNode.text "Error loading indicators"]
  React.createElement "div" (some [("className", "base-container")]) [heading]

/-- What a module exposes: its default export and the names of its named exports. -/
structure ModuleExports (α : Type) where
  defaultExport : α
  namedExports : List String

/-- The module as a function of the binding it imports from `./ErrorBoundaryHoc`
(source lines 2 and 12):
```
export default ErrorBoundaryHoc(IndicatorErrorBoundary);
```
There is no other `export` in the file. -/
def IndicatorErrorBoundaryModule {α : Type}
    (ErrorBoundaryHoc : (JSValue → JS ReactNode) → α) : ModuleExports α where
  defaultExport := ErrorBoundaryHoc IndicatorErrorBoundary
  namedExports := []

/-! ## Reading a view tree -/

mutual
/-- The text nodes below a node (the node itself when it is a text node), in document
order, each with the tags of its ancestors from the root down. -/
def ReactNode.textNodesUnder (path : List String) : ReactNode → List (List String × String)
  | ReactNode.text v => [(path, v)]
  | ReactNode.element tag _ cs => ReactNode.textNodesUnderList (path ++ [tag]) cs
/-- The text nodes of a list of sibling nodes. -/
def ReactNode.textNodesUnderList (path : List String) :
    List ReactNode → List (List String × String)
  | [] => []
  | c :: cs => ReactNode.textNodesUnder path c ++ ReactNode.textNodesUnderList path cs
end

/-- All text nodes of a tree with their ancestor tags. -/
def ReactNode.textNodes (t : ReactNode) : List (List String × String) :=
  ReactNode.textNodesUnder [] t

/-- The text content of a node: its text nodes concatenated in document order. -/
def ReactNode.textContent (t : ReactNode) : String :=
  String.join (t.textNodes.map Prod.snd)

mutual
/-- The proper descendants of a node, in document order. -/
def ReactNode.descendants : ReactNode → List ReactNode
  | ReactNode.text _ => []
  | ReactNode.element _ _ cs => ReactNode.descendantsList cs
/-- The nodes of a list of siblings together with their descendants. -/
def ReactNode.descendantsList : List ReactNode → List ReactNode
  | [] => []
  | c :: cs => c :: (ReactNode.descendants c ++ ReactNode.descendantsList cs)
end

/-- The tag of an element; a text node has none. -/
def ReactNode.tag? : ReactNode → Option String
  | ReactNode.text _ => none
  | ReactNode.element tag _ _ => some tag

/-- The tag of a container element: `div`, the generic container of HTML. -/
def isContainerTag (tag : String) : Prop :=
  tag = "div"

/-- The tags of heading elements: `h1` to `h6`. -/
def isHeadingTag (tag : String) : Prop :=
  tag ∈ ["h1", "h2", "h3", "h4", "h5", "h6"]

/-- A container element is an element with a container tag. -/
def ReactNode.isContainer (t : ReactNode) : Prop :=
  ∃ tag, t.tag? = some tag ∧ isContainerTag tag

/-- A heading element is an element with a heading tag. -/
def ReactNode.isHeading (t : ReactNode) : Prop :=
  ∃ tag, t.tag? = some tag ∧ isHeadingTag tag

/-! ## Theorems -/

/-- C1: for every props value, and so also when no props are passed, the call
`IndicatorErrorBoundary(props)` returns a view tree whose root is a container element
and which has a descendant heading element whose text content is exactly
"Error loading indicators". -/
theorem indicatorErrorBoundary_container_heading {Props : Type} (props : Props) (w : World) :
    ∃ root, IndicatorErrorBoundary props w = (Except.ok root, w) ∧ root.isContainer ∧
      ∃ h ∈ root.descendants, h.isHeading ∧ h.textContent = "Error loading indicators" := by
  refine ⟨_, rfl, ⟨"div", rfl, rfl⟩, _, List.Mem.head _, ⟨"h3", rfl, ?_⟩, rfl⟩
  simp [isHeadingTag]

/-- C2: the component ignores its input. For any two props values, of any types,
and any two external states, the two calls return the same view tree; the two calls
are the same computation; and calling it twice in a row returns the same view tree
both times. -/
theorem indicatorErrorBoundary_ignores_props {P Q : Type} (p : P) (q : Q) (w w2 : World) :
    (IndicatorErrorBoundary p w).1 = (IndicatorErrorBoundary q w2).1 ∧
      IndicatorErrorBoundary p = IndicatorErrorBoundary q ∧
      ∃ t, (IndicatorErrorBoundary p >>= fun a =>
              IndicatorErrorBoundary q >>= fun b => JS.pure (a, b)) w
            = (Except.ok (t, t), w) :=
  ⟨rfl, rfl, _, rfl⟩

/-- C4: rendered with no props, the output has the text "Error loading indicators"
exactly once among its text nodes, and every occurrence of it is a child of a heading
element that is a child of the root container element. -/
theorem indicatorErrorBoundary_text_once (w : World) :
    ∃ root, IndicatorErrorBoundary JSValue.undefined w = (Except.ok root, w) ∧
      root.isContainer ∧
      (root.textNodes.map Prod.snd).count "Error loading indicators" = 1 ∧
      ∀ path, (path, "Error loading indicators") ∈ root.textNodes →
        ∃ container heading, path = [container, heading] ∧
          root.tag? = some container ∧ isContainerTag container ∧ isHeadingTag heading := by
  refine ⟨_, rfl, ⟨"div", rfl, rfl⟩, ?_, ?_⟩
  · simp [ReactNode.textNodes, ReactNode.textNodesUnder, ReactNode.textNodesUnderList]
  · intro path hp
    simp [ReactNode.textNodes, ReactNode.textNodesUnder, ReactNode.textNodesUnderList] at hp
    subst hp
    exact ⟨"div", "h3", rfl, rfl, rfl, by simp [isHeadingTag]⟩

/-- C5: the component has no error conditions. For every props value of every type,
among them `undefined`, `null` and objects with any fields, the call returns a view
tree, and it throws no error. -/
theorem indicatorErrorBoundary_never_throws {Props : Type} (props : Props)
    (fields : List (String × JSValue)) (w : World) :
    (∃ t w1, IndicatorErrorBoundary props w = (Except.ok t, w1)) ∧
    (∀ e w1, IndicatorErrorBoundary props w ≠ (Except.error e, w1)) ∧
    (∃ t w1, IndicatorErrorBoundary JSValue.undefined w = (Except.ok t, w1)) ∧
    (∃ t w1, IndicatorErrorBoundary JSValue.null w = (Except.ok t, w1)) ∧
    (∃ t w1, IndicatorErrorBoundary (JSValue.object fields) w = (Except.ok t, w1)) := by
  refine ⟨⟨_, _, rfl⟩, ?_, ⟨_, _, rfl⟩, ⟨_, _, rfl⟩, ⟨_, _, rfl⟩⟩
  intro e w1 h
  have h1 := congrArg Prod.fst h
  exact Except.noConfusion h1

/-- C6: rendering the component has no side effects. For every props value and every
external state, the external state after the call is the state before it: the
requests sent, the storage and the pending timers are all unchanged. -/
theorem indicatorErrorBoundary_no_side_effects {Props : Type} (props : Props) (w : World) :
    (IndicatorErrorBoundary props w).2 = w ∧
    (IndicatorErrorBoundary props w).2.network = w.network ∧
    (IndicatorErrorBoundary props w).2.storage = w.storage ∧
    (IndicatorErrorBoundary props w).2.timers = w.timers :=
  ⟨rfl, rfl, rfl, rfl⟩

/-- C7: for every props value the call returns exactly the reference tree: a `div`
whose only attribute is `className = "base-container"` and whose only child is an
`h3` with no attributes whose only child is the text node "Error loading indicators".
Nothing of the input is forwarded to either element. -/
theorem indicatorErrorBoundary_reference_tree {Props : Type} (props : Props) (w : World) :
    IndicatorErrorBoundary props w =
      (Except.ok
        (ReactNode.element "div" [("className", "base-container")]
          [ReactNode.element "h3" [] [ReactNode.text "Error loading indicators"]]),
        w) :=
  rfl

/-- C8: the default export of the module is the wrapping utility applied to the
fallback view and to nothing else. Whatever function stands for `ErrorBoundaryHoc`,
the default export is that function applied to `IndicatorErrorBoundary`, and the
module has no named export, so the unwrapped view is not exported. -/
theorem defaultExport_is_wrapped_fallback {α : Type} (h : (JSValue → JS ReactNode) → α) :
    (IndicatorErrorBoundaryModule h).defaultExport = h IndicatorErrorBoundary ∧
    (IndicatorErrorBoundaryModule h).namedExports = [] :=
  ⟨rfl, rfl⟩

end TradingWithBot
